import Mathlib

/-!
Shallow embedding of the email-campaign application (`src/app.py`) and
verification of its specification claims.

The embedding follows the source file closely:
* Python strings are Lean `String`s (a structure over `List Char`);
  Python's substring test `pat in s`, `str.replace`, `x or default`, and
  `urllib.parse.quote(s, safe="")` are embedded below.
* The checkpoint files under `campaign_resume/` are modelled as a map from
  path names to file contents; file contents are either a JSON value, or
  malformed/unreadable data.
* `smtplib` transport behaviour is modelled by an `SmtpEnv` record saying
  which step of the attempt (connect, starttls, login, send, quit) raises,
  and with what message; Python exceptions are `Except.error` values.
-/

set_option maxRecDepth 16384

/-- `listStartsWith p s` is true when `p` is a prefix of `s`
(the character-list form of Python's `str.startswith`). -/
def listStartsWith : List Char → List Char → Bool
  | [], _ => true
  | _ :: _, [] => false
  | p :: ps, s :: ss => (p == s) && listStartsWith ps ss

/-- `isSubstrL pat s` embeds Python's substring test `pat in s`
on character lists. -/
def isSubstrL (pat : List Char) : List Char → Bool
  | [] => pat.isEmpty
  | c :: rest => listStartsWith pat (c :: rest) || isSubstrL pat rest

/-- Python's `pat in s` on strings. -/
def pyIn (pat s : String) : Bool := isSubstrL pat.data s.data

/-- Scanning loop of Python's `str.replace`: at each position, if the
non-empty pattern matches, emit the replacement and continue after the
matched segment, else keep the character and move on.  The fuel argument
(instantiated with the length of the scanned list, which bounds the number
of scanning steps) only makes the recursion structural. -/
def replaceGo (pat rep : List Char) : Nat → List Char → List Char
  | _, [] => []
  | 0, s => s
  | fuel + 1, c :: rest =>
    if pat ≠ [] ∧ listStartsWith pat (c :: rest) then
      rep ++ replaceGo pat rep fuel ((c :: rest).drop pat.length)
    else
      c :: replaceGo pat rep fuel rest

/-- Python's `s.replace(pat, rep)` for a non-empty pattern: replace every
non-overlapping occurrence, scanning left to right. -/
def replaceAllL (pat rep s : List Char) : List Char :=
  replaceGo pat rep s.length s

/-- Python's `s.replace(pat, rep)` on strings. -/
def pyReplace (s pat rep : String) : String :=
  ⟨replaceAllL pat.data rep.data s.data⟩

/-- Python's `x or default` for an optional string `x` (both `None` and the
empty string are falsy and select the default). -/
def pyOrStr (x : Option String) (default : String) : String :=
  match x with
  | none => default
  | some s => if s = "" then default else s

/-- The characters `urllib.parse.quote` leaves unescaped when `safe=""`:
ASCII letters, digits, and `_.-~`. -/
def isUnreservedChar (c : Char) : Bool :=
  c.isAlphanum || c == '-' || c == '_' || c == '.' || c == '~'

/-- Upper-case hexadecimal digit for a nibble. -/
def hexUpper (n : Nat) : Char :=
  let m := n % 16
  if m < 10 then Char.ofNat (48 + m) else Char.ofNat (55 + m)

/-- `%XX` escape for one byte, as produced by `urllib.parse.quote`. -/
def pctByte (b : Nat) : List Char := ['%', hexUpper (b / 16), hexUpper (b % 16)]

/-- UTF-8 encoding of one character, as a list of byte values
(`urllib.parse.quote` percent-encodes the UTF-8 bytes of non-safe
characters). -/
def utf8Bytes (c : Char) : List Nat :=
  let n := c.toNat
  if n < 0x80 then [n]
  else if n < 0x800 then
    [0xC0 + n / 0x40, 0x80 + n % 0x40]
  else if n < 0x10000 then
    [0xE0 + n / 0x1000, 0x80 + (n / 0x40) % 0x40, 0x80 + n % 0x40]
  else
    [0xF0 + n / 0x40000, 0x80 + (n / 0x1000) % 0x40,
     0x80 + (n / 0x40) % 0x40, 0x80 + n % 0x40]

/-- `urllib.parse.quote(s, safe="")` on character lists: safe characters
pass through, every other character contributes one `%XX` escape per
UTF-8 byte. -/
def pyQuoteL (s : List Char) : List Char :=
  (s.map fun c =>
    if isUnreservedChar c then [c]
    else ((utf8Bytes c).map pctByte).flatten).flatten

/-- `urllib.parse.quote(s, safe="")` on strings. -/
def pyQuote (s : String) : String := ⟨pyQuoteL s.data⟩

/-- Value of a hexadecimal digit character, if any. -/
def hexVal (c : Char) : Option Nat :=
  if '0' ≤ c ∧ c ≤ '9' then some (c.toNat - 48)
  else if 'A' ≤ c ∧ c ≤ 'F' then some (c.toNat - 55)
  else if 'a' ≤ c ∧ c ≤ 'f' then some (c.toNat - 87)
  else none

/-- Standard percent-decoding of a query-parameter value into its byte
sequence (`%XX` becomes the byte `XX`; any other character stands for its
own code).  This is the decoding the tracking service applies. -/
def percentDecode : List Char → Option (List Nat)
  | [] => some []
  | c :: rest =>
    if c = '%' then
      match rest with
      | h1 :: h2 :: rest2 =>
        match hexVal h1, hexVal h2, percentDecode rest2 with
        | some a, some b, some t => some ((16 * a + b) :: t)
        | _, _, _ => none
      | _ => none
    else
      (percentDecode rest).map (c.toNat :: ·)

/-- JSON values, the image of `json.dump`/`json.load` for the data this
application checkpoints. -/
inductive Json where
  | null : Json
  | bool (b : Bool) : Json
  | num (n : Int) : Json
  | str (s : String) : Json
  | arr (xs : List Json) : Json
  | obj (kvs : List (String × Json)) : Json

/-- Contents of one file in the `campaign_resume/` directory: a JSON value
written by `json.dump`, malformed (non-JSON) data, or an unreadable file. -/
inductive FileData where
  | valid (j : Json) : FileData
  | malformed : FileData
  | unreadable : FileData

/-- The checkpoint file system: path name to file contents; `none` means
the file is absent. -/
def ResumeFS : Type := String → Option FileData

/-- Path of the checkpoint file for one run identifier
(`campaign_resume/{timestamp}.json`). -/
def resumePath (timestamp : String) : String :=
  "campaign_resume/" ++ timestamp ++ ".json"

/-- `save_resume_point(timestamp, data, last_sent_index)` from `src/app.py`:
writes `{"data": data, "last_sent_index": last_sent_index}` to
`campaign_resume/{timestamp}.json`, overwriting any previous contents. -/
def save_resume_point (fs : ResumeFS) (timestamp : String) (data : Json)
    (last_sent_index : Int) : ResumeFS :=
  fun p =>
    if p = resumePath timestamp then
      some (FileData.valid (Json.obj
        [("data", data), ("last_sent_index", Json.num last_sent_index)]))
    else fs p

/-- `load_resume_point(timestamp)` from `src/app.py`: opens and parses
`campaign_resume/{timestamp}.json`; the bare `except:` turns every failure
(missing file, unreadable file, malformed JSON) into `None`. -/
def load_resume_point (fs : ResumeFS) (timestamp : String) : Option Json :=
  match fs (resumePath timestamp) with
  | some (FileData.valid j) => some j
  | _ => none

/-- The click-tracking URL local of `generate_email_html`: the address is
interpolated as given, the CTA URL and subject as already-encoded strings. -/
def tracking_link (email_for_tracking encoded_cta_url encoded_subject : String) :
    String :=
  "https://tracking-enfw.onrender.com/track/click?email=" ++ email_for_tracking
    ++ "&url=" ++ encoded_cta_url ++ "&subject=" ++ encoded_subject

/-- The open-tracking pixel local of `generate_email_html`: a 1x1 image whose
source is the open-tracking URL. -/
def tracking_pixel (email_for_tracking encoded_subject : String) : String :=
  "<img src=\"https://tracking-enfw.onrender.com/track/open?email="
    ++ email_for_tracking ++ "&subject=" ++ encoded_subject
    ++ "\" width=\"1\" height=\"1\" style=\"display:block;\" />"

/-- The unsubscribe URL local of `generate_email_html`. -/
def unsubscribe_link (email_for_tracking : String) : String :=
  "https://unsubscribe-uofn.onrender.com/unsubscribe?email=" ++ email_for_tracking

/-- The HTML document returned by `generate_email_html`, as a function of the
five interpolated values of the source f-string. -/
def email_html_doc (pixel rendered cta_text link unsub : String) : String :=
  "\n    <html>\n    <body style=\"margin:0;padding:0;background:#f9f9f9;font-family:Arial;\">\n    "
  ++ pixel
  ++ "\n\n    <table width=\"100%\" cellpadding=\"0\" cellspacing=\"0\">\n      <tr>\n        <td align=\"center\" style=\"padding:30px\">\n          <table width=\"100%\" style=\"max-width:700px;background:#fff;\n            border-radius:10px;box-shadow:0 4px 14px rgba(0,0,0,.07)\">\n            <tr>\n              <td style=\"padding:30px\">\n\n                "
  ++ rendered
  ++ "\n\n                <!-- CTA -->\n                <table align=\"center\" style=\"margin-top:30px\">\n                  <tr>\n                    <td bgcolor=\"#D7262F\" style=\"border-radius:6px\">\n                      <a href=\""
  ++ link
  ++ "\" target=\"_blank\"\n                        style=\"display:inline-block;padding:16px 28px;\n                        font-size:15px;color:#fff;text-decoration:none;\n                        font-weight:bold;border-radius:6px;\">\n                        "
  ++ cta_text
  ++ "\n                      </a>\n                    </td>\n                  </tr>\n                </table>\n\n                <!-- Signature -->\n                <p style=\"margin-top:25px;font-weight:bold\">\n                  Andrew<br/>\n                  Sales Director<br/>\n                  3–4 March 2026 | London Olympia<br/>\n                  <a href=\"mailto:andrew@corporatewellbeingexpo.com\"\n                     style=\"color:#D7262F\">andrew@corporatewellbeingexpo.com</a><br/>\n                  (+44) 2034517166\n                </p>\n\n                <p style=\"font-size:11px;color:#888;text-align:center;margin-top:30px\">\n                  Not interested?\n                  <a href=\""
  ++ unsub
  ++ "\" style=\"color:#D7262F\">Unsubscribe</a>\n                </p>\n\n              </td>\n            </tr>\n          </table>\n        </td>\n      </tr>\n    </table>\n    </body>\n    </html>\n    "

/-- `generate_email_html` from `src/app.py`.  Python `None` arguments are
`none`; a `None` template makes `custom_html.replace(...)` raise an
`AttributeError`, modelled as `Except.error`; every string template renders.
The name placeholder substitution uses `full_name or ""`. -/
def generate_email_html (full_name : Option String)
    (recipient_email : Option String := none) (subject : Option String := none)
    (custom_html : Option String := none)
    (cta_text : String := "Book My Ticket Now") (cta_url : String := "#") :
    Except String String :=
  let email_for_tracking := pyOrStr recipient_email "unknown@example.com"
  let encoded_subject := pyQuote (pyOrStr subject "No Subject")
  let encoded_cta_url := pyQuote cta_url
  match custom_html with
  | none => Except.error "AttributeError: NoneType object has no attribute replace"
  | some tmpl =>
    Except.ok (email_html_doc
      (tracking_pixel email_for_tracking encoded_subject)
      (pyReplace tmpl "{name}" (pyOrStr full_name ""))
      cta_text
      (tracking_link email_for_tracking encoded_cta_url encoded_subject)
      (unsubscribe_link email_for_tracking))

/-- One recipient row as seen by `send_email`: `none` fields model a row
whose frame has no such column, so that `row[...]` raises a `KeyError`. -/
structure Row where
  email : Option String
  full_name : Option String
deriving DecidableEq

/-- Behaviour of the SMTP transport for one attempt: for each step that can
raise, the exception message if it does. -/
structure SmtpEnv where
  connectRaises : Option String
  starttlsRaises : Option String
  loginRaises : Option String
  sendRaises : Option String
  quitRaises : Option String

/-- Transport-connection lifecycle events of one send attempt:
`acquire` when `smtplib.SMTP(...)` returns a connection, `release` when
`server.quit()` runs. -/
inductive TEvent where
  | acquire : TEvent
  | release : TEvent
deriving DecidableEq

/-- The body of `send_email`'s `try:` block, paired with the
connection-lifecycle events it performs: connect, starttls, login, build the
message (`row["email"]`), render (`row["full_name"]`, then
`generate_email_html`), `send_message`, `quit`.  An `Except.error` is a
Python exception escaping the block. -/
def send_attempt (sender_email sender_password : String) (row : Row)
    (subject : String) (custom_html : Option String)
    (cta_text cta_url : String) (env : SmtpEnv) :
    Except String (String × String) × List TEvent :=
  match env.connectRaises with
  | some e => (Except.error e, [])
  | none =>
    match env.starttlsRaises with
    | some e => (Except.error e, [TEvent.acquire])
    | none =>
      match env.loginRaises with
      | some e => (Except.error e, [TEvent.acquire])
      | none =>
        match row.email with
        | none => (Except.error "KeyError: email", [TEvent.acquire])
        | some addr =>
          match row.full_name with
          | none => (Except.error "KeyError: full_name", [TEvent.acquire])
          | some nm =>
            match generate_email_html (some nm) (some addr) (some subject)
                custom_html cta_text cta_url with
            | Except.error e => (Except.error e, [TEvent.acquire])
            | Except.ok _ =>
              match env.sendRaises with
              | some e => (Except.error e, [TEvent.acquire])
              | none =>
                match env.quitRaises with
                | some e => (Except.error e, [TEvent.acquire])
                | none =>
                  (Except.ok (addr, "✅ Delivered"),
                   [TEvent.acquire, TEvent.release])

/-- `send_email` from `src/app.py`, with its connection-lifecycle trace.
The `except Exception as e:` handler evaluates `row["email"]` again: when
the row has no email field the handler itself raises, so the exception
escapes the call. -/
def send_email_run (sender_email sender_password : String) (row : Row)
    (subject : String) (custom_html : Option String)
    (cta_text cta_url : String) (env : SmtpEnv) :
    Except String (String × String) × List TEvent :=
  match send_attempt sender_email sender_password row subject custom_html
      cta_text cta_url env with
  | (Except.ok v, tr) => (Except.ok v, tr)
  | (Except.error e, tr) =>
    match row.email with
    | some addr => (Except.ok (addr, "❌ Failed: " ++ e), tr)
    | none => (Except.error "KeyError: email", tr)

/-- `send_email`'s return value (the per-recipient outcome pair, or the
exception that escaped the call). -/
def send_email (sender_email sender_password : String) (row : Row)
    (subject : String) (custom_html : Option String)
    (cta_text cta_url : String) (env : SmtpEnv) :
    Except String (String × String) :=
  (send_email_run sender_email sender_password row subject custom_html
    cta_text cta_url env).1

/-- One step of the result-aggregation loop of the Start Campaign block:
`delivered += "✅" in result; failed += "❌" in result`. -/
def aggStep (acc : Nat × Nat) (result : String) : Nat × Nat :=
  (acc.1 + (if isSubstrL ['✅'] result.data then 1 else 0),
   acc.2 + (if isSubstrL ['❌'] result.data then 1 else 0))

/-- The result-aggregation loop of the Start Campaign block over the result
strings of all futures, starting from `delivered, failed = 0, 0`. -/
def aggregateResults (results : List String) : Nat × Nat :=
  results.foldl aggStep (0, 0)

/-- Python's `str.strip` on character lists: drop whitespace from both
ends. -/
def trimL (l : List Char) : List Char :=
  ((l.dropWhile Char.isWhitespace).reverse.dropWhile Char.isWhitespace).reverse

/-- Header normalization of the Start Campaign block:
`df.columns.str.lower().str.strip()`. -/
def normalizeHeader (h : String) : String := ⟨trimL (h.data.map Char.toLower)⟩

/-- Header processing of the Start Campaign block: normalize, then
`df.rename(columns={"full name": "full_name"})`. -/
def processHeaders (headers : List String) : List String :=
  headers.map fun h =>
    if normalizeHeader h = "full name" then "full_name" else normalizeHeader h

/-- Index of a column name in the processed header list. -/
def colIndex : List String → String → Option Nat
  | [], _ => none
  | h :: t, c => if h = c then some 0 else (colIndex t c).map (· + 1)

/-- The row object a DataFrame row presents to `send_email`: each field is
the cell under the column of that name, absent when the column is absent. -/
def toRow (headers : List String) (cells : List String) : Row :=
  { email := (colIndex headers "email").bind fun i => cells.get? i,
    full_name := (colIndex headers "full_name").bind fun i => cells.get? i }

/-- The dispatch loop of the Start Campaign block: one
`executor.submit(send_email, ...)` per row of the uploaded CSV, in order.
The block never consults the resume store, so the submissions depend only
on the CSV contents. -/
def startCampaignSubmissions (headers : List String)
    (rows : List (List String)) : List Row :=
  rows.map (toRow (processHeaders headers))

/-! ### Helper lemmas -/

theorem isSubstrL_single (c : Char) (l : List Char) :
    isSubstrL [c] l = true ↔ c ∈ l := by
  induction l with
  | nil => simp [isSubstrL]
  | cons x xs ih => simp [isSubstrL, listStartsWith, ih]

theorem aggregate_foldl (rs : List String) (d f : Nat) :
    rs.foldl aggStep (d, f) =
      (d + rs.countP (fun r => isSubstrL ['✅'] r.data),
       f + rs.countP (fun r => isSubstrL ['❌'] r.data)) := by
  induction rs generalizing d f with
  | nil => simp
  | cons r t ih =>
    simp only [List.foldl_cons, aggStep, ih, List.countP_cons, Prod.mk.injEq]
    constructor <;> (split_ifs <;> omega)

theorem countP_split {α : Type} (p q : α → Bool) (l : List α)
    (h : ∀ r ∈ l, (p r = true ∧ q r = false) ∨ (p r = false ∧ q r = true)) :
    l.countP p + l.countP q = l.length := by
  induction l with
  | nil => simp
  | cons a t ih =>
    have ht := ih fun r hr => h r (by simp [hr])
    rcases h a (by simp) with ⟨h1, h2⟩ | ⟨h1, h2⟩ <;>
      simp [List.countP_cons, h1, h2] <;> omega

theorem colIndex_eq_none (l : List String) (c : String) (h : c ∉ l) :
    colIndex l c = none := by
  induction l with
  | nil => rfl
  | cons a t ih =>
    simp only [List.mem_cons, not_or] at h
    rw [colIndex, if_neg (fun he => h.1 he.symm), ih h.2]
    rfl

theorem hexVal_hexUpper (n : Nat) : hexVal (hexUpper n) = some (n % 16) := by
  have h : n % 16 < 16 := Nat.mod_lt _ (by norm_num)
  simp only [hexVal, hexUpper]
  set m := n % 16 with hm
  interval_cases m <;> decide

theorem percentDecode_pyQuoteL_ascii (l : List Char) (h : ∀ c ∈ l, c.toNat < 128) :
    percentDecode (pyQuoteL l) = some (l.map Char.toNat) := by
  induction l with
  | nil => rfl
  | cons c t ih' =>
    have ih := ih'
    have hc : c.toNat < 128 := h c (by simp)
    have ht := ih fun x hx => h x (by simp [hx])
    by_cases hu : isUnreservedChar c = true
    · have hq : pyQuoteL (c :: t) = c :: pyQuoteL t := by simp [pyQuoteL, hu]
      have hnp : c ≠ '%' := by
        intro he; rw [he] at hu; exact absurd hu (by decide)
      rw [hq, percentDecode.eq_def]
      simp [hnp, ht]
    · have hb : utf8Bytes c = [c.toNat] := by
        simp [utf8Bytes]
        omega
      have hq : pyQuoteL (c :: t) = pctByte c.toNat ++ pyQuoteL t := by
        simp [pyQuoteL, hu, hb]
      rw [hq]
      rw [show pctByte c.toNat ++ pyQuoteL t =
        '%' :: (hexUpper (c.toNat / 16) :: hexUpper (c.toNat % 16) :: pyQuoteL t) from rfl]
      rw [percentDecode.eq_def]
      simp [hexVal_hexUpper, ht]
      omega

/-! ### Claim theorems -/

/-- C1 counterexample: the aggregation loop counts by substring markers, so a
completed one-recipient run whose failure reason itself contains the
delivered marker (an exception text the transport can produce, here a login
failure whose message is `✅ boom`) is counted in both counters, and
`delivered + failed = 2 ≠ 1 = len(recipients)`. -/
theorem c1_counterexample :
    send_email "andrew@corporatewellbeingexpo.com" "pw"
        { email := some "a@b.com", full_name := some "Bob" } "subj" (some "hi")
        "Book" "#" ⟨none, none, some "✅ boom", none, none⟩ =
      Except.ok ("a@b.com", "❌ Failed: ✅ boom") ∧
    aggregateResults ["❌ Failed: ✅ boom"] = (1, 1) ∧
    (aggregateResults ["❌ Failed: ✅ boom"]).1 +
      (aggregateResults ["❌ Failed: ✅ boom"]).2 ≠ 1 :=
  ⟨rfl, rfl, by decide⟩

/-- C1 (amended): for a completed run whose result strings have the shapes
`send_email` produces, provided no failure reason contains the delivered
marker `✅`, each recipient is counted in exactly one of the two counters and
`delivered + failed` equals the number of recipients. -/
theorem c1_counts_partition (results : List String)
    (h : ∀ r ∈ results, r = "✅ Delivered" ∨
      ∃ e : String, r = "❌ Failed: " ++ e ∧ isSubstrL ['✅'] e.data = false) :
    (aggregateResults results).1 + (aggregateResults results).2 =
      results.length ∧
    ∀ r ∈ results,
      ¬(isSubstrL ['✅'] r.data = true ∧ isSubstrL ['❌'] r.data = true) := by
  have flags : ∀ r ∈ results,
      ((fun r => isSubstrL ['✅'] r.data) r = true ∧
        (fun r => isSubstrL ['❌'] r.data) r = false) ∨
      ((fun r => isSubstrL ['✅'] r.data) r = false ∧
        (fun r => isSubstrL ['❌'] r.data) r = true) := by
    intro r hr
    rcases h r hr with rfl | ⟨e, rfl, he⟩
    · left
      exact ⟨by decide, by decide⟩
    · right
      have hd : ("❌ Failed: " ++ e).data = "❌ Failed: ".data ++ e.data :=
        String.data_append _ _
      constructor
    
      · simp only [hd]
        cases hx : isSubstrL ['✅'] ("❌ Failed: ".data ++ e.data) with
        | false => rfl
        | true =>
          have hm := (isSubstrL_single _ _).mp hx
          rcases List.mem_append.mp hm with hm1 | hm2
          · exact absurd hm1 (by decide)
          · exact absurd ((isSubstrL_single _ _).mpr hm2)
              (by simp [he])
      · simp only [hd]
        exact (isSubstrL_single _ _).mpr
          (List.mem_append.mpr (Or.inl (by decide)))
  constructor
  · have := countP_split _ _ results flags
    simp only [aggregateResults, aggregate_foldl, Nat.zero_add]
    omega
  · intro r hr hcontra
    rcases flags r hr with ⟨_, h2⟩ | ⟨h1, _⟩
    · simp only at h2
      rw [hcontra.2] at h2
      exact Bool.noConfusion h2
    · simp only at h1
      rw [hcontra.1] at h1
      exact Bool.noConfusion h1

/-- Witness for C1: a completed two-recipient run with one delivery and one
ordinary failure satisfies the partition property. -/
theorem c1_counts_partition_witness :
    (aggregateResults ["✅ Delivered", "❌ Failed: relay rejected"]).1 +
      (aggregateResults ["✅ Delivered", "❌ Failed: relay rejected"]).2 =
      (["✅ Delivered", "❌ Failed: relay rejected"] : List String).length ∧
    ∀ r ∈ (["✅ Delivered", "❌ Failed: relay rejected"] : List String),
      ¬(isSubstrL ['✅'] r.data = true ∧ isSubstrL ['❌'] r.data = true) :=
  c1_counts_partition ["✅ Delivered", "❌ Failed: relay rejected"] (by
    intro r hr
    simp only [List.mem_cons, List.not_mem_nil, or_false] at hr
    rcases hr with rfl | rfl
    · exact Or.inl rfl
    · exact Or.inr ⟨"relay rejected", rfl, by decide⟩)

/-- C2: the Start Campaign dispatch block takes no checkpoint input at all —
after a checkpoint with cursor 1 is saved and successfully loaded for a
2-recipient run, re-running the campaign over the same CSV still submits a
`send_email` task for every row, including index 0 below the stored cursor,
so at-most-one-attempt is not preserved across restarts. -/
theorem c2_dispatch_ignores_checkpoint :
    load_resume_point (save_resume_point (fun _ => none) "20240101"
        (Json.arr [Json.str "a@x.com", Json.str "b@x.com"]) 1) "20240101" =
      some (Json.obj [("data", Json.arr [Json.str "a@x.com", Json.str "b@x.com"]),
        ("last_sent_index", Json.num 1)]) ∧
    startCampaignSubmissions ["email"] [["a@x.com"], ["b@x.com"]] =
      [{ email := some "a@x.com", full_name := none },
       { email := some "b@x.com", full_name := none }] :=
  ⟨rfl, rfl⟩

/-- C6 counterexample: with an absent (`None`) template — exactly what the
rich-text widget yields before it initializes — the renderer raises an
`AttributeError` from `custom_html.replace(...)` instead of substituting
gracefully. -/
theorem c6_counterexample :
    generate_email_html (some "Sarah Johnson") none (some "Subject") none
      "Book My Ticket Now" "https://www.eventbrite.com/" =
    Except.error "AttributeError: NoneType object has no attribute replace" :=
  rfl

/-- C6 (amended): for every present (string) template, however malformed,
and all other inputs, the renderer never raises: it returns a rendered
message. -/
theorem c6_render_total_on_string_template (full_name recipient_email subject :
    Option String) (tmpl cta_text cta_url : String) :
    ∃ html, generate_email_html full_name recipient_email subject (some tmpl)
      cta_text cta_url = Except.ok html :=
  ⟨_, rfl⟩

/-- C7 counterexample: with an absent name the substitution inserts the
empty string, but removing an occurrence of the placeholder can join the
surrounding text into a new occurrence: rendering the template
`{na{name}me}` leaves a literal `{name}` in the rendered body. -/
theorem c7_counterexample :
    (generate_email_html none (some "a@b.com") (some "Subject")
        (some "\x7bna\x7bname\x7dme\x7d") "Book" "#").map (pyIn "{name}") =
      Except.ok true :=
  rfl

/-- C7 (amended): for every recipient whose `full_name` is absent, rendering
substitutes the empty string for the placeholder occurrences — the output is
identical to rendering with an empty-string name, so no `None` marker is
inserted — and no crash occurs; the placeholder may only survive through
text joined by the removal itself (see the counterexample). -/
theorem c7_absent_name_empty_insertion (recipient_email subject : Option String)
    (tmpl cta_text cta_url : String) :
    generate_email_html none recipient_email subject (some tmpl) cta_text
        cta_url =
      generate_email_html (some "") recipient_email subject (some tmpl)
        cta_text cta_url ∧
    ∃ html, generate_email_html none recipient_email subject (some tmpl)
      cta_text cta_url = Except.ok html :=
  ⟨rfl, _, rfl⟩

/-- C9: saving a checkpoint and loading it back for the same run identifier
returns exactly the saved `{data, last_sent_index}` object, and a second
save for the same run identifier completely overwrites the first. -/
theorem c9_roundtrip_and_overwrite (fs : ResumeFS) (timestamp : String)
    (data : Json) (last_sent_index : Int) :
    load_resume_point (save_resume_point fs timestamp data last_sent_index)
        timestamp =
      some (Json.obj
        [("data", data), ("last_sent_index", Json.num last_sent_index)]) ∧
    ∀ (d : Json) (i : Int),
      save_resume_point (save_resume_point fs timestamp d i) timestamp data
          last_sent_index =
        save_resume_point fs timestamp data last_sent_index := by
  constructor
  · simp [load_resume_point, save_resume_point]
  · intro d i
    funext p
    by_cases hp : p = resumePath timestamp <;> simp [save_resume_point, hp]

/-- C10: `load_resume_point` never raises — for a checkpoint file that is
absent, unreadable, or holds malformed JSON, the bare `except:` yields
`None`, making all three failure modes indistinguishable from a missing
checkpoint. -/
theorem c10_load_never_raises (fs : ResumeFS) (timestamp : String)
    (h : fs (resumePath timestamp) = none ∨
         fs (resumePath timestamp) = some FileData.unreadable ∨
         fs (resumePath timestamp) = some FileData.malformed) :
    load_resume_point fs timestamp = none := by
  rcases h with h | h | h <;> simp [load_resume_point, h]

/-- Witness for C10: a file system on which every read yields malformed
data makes the load return the absent signal. -/
theorem c10_load_never_raises_witness :
    load_resume_point (fun _ => some FileData.malformed) "20240101" = none :=
  c10_load_never_raises _ "20240101" (Or.inr (Or.inr rfl))

/-- C3 counterexample: for the address `a@b.com` the unsubscribe URL embeds
the address verbatim — not percent-encoded (`a%40b.com` does not occur in
it) — and carries no subject parameter at all; the full rendered document
likewise contains the raw `email=a@b.com` query parameter. -/
theorem c3_counterexample :
    unsubscribe_link "a@b.com" =
      "https://unsubscribe-uofn.onrender.com/unsubscribe?email=a@b.com" ∧
    pyQuote "a@b.com" = "a%40b.com" ∧
    pyIn "a%40b.com" (unsubscribe_link "a@b.com") = false ∧
    pyIn "subject" (unsubscribe_link "a@b.com") = false ∧
    (generate_email_html (some "Bob") (some "a@b.com") (some "s") (some "hi")
        "Book" "#").map (pyIn "email=a@b.com") = Except.ok true :=
  ⟨rfl, rfl, by decide, by decide, rfl⟩

/-- C3 (amended): the renderer builds the three derived URLs with the subject
and the CTA destination percent-encoded (an encoding standard
percent-decoding inverts, shown here for ASCII inputs), but it interpolates
the recipient's address unencoded into all three URLs, and the unsubscribe
URL has only the email parameter. -/
theorem c3_encoded_subject_raw_email (full_name : Option String)
    (email subject tmpl cta_text cta_url : String) :
    generate_email_html full_name (some email) (some subject) (some tmpl)
        cta_text cta_url =
      Except.ok (email_html_doc
        (tracking_pixel (pyOrStr (some email) "unknown@example.com")
          (pyQuote (pyOrStr (some subject) "No Subject")))
        (pyReplace tmpl "{name}" (pyOrStr full_name ""))
        cta_text
        (tracking_link (pyOrStr (some email) "unknown@example.com")
          (pyQuote cta_url) (pyQuote (pyOrStr (some subject) "No Subject")))
        (unsubscribe_link (pyOrStr (some email) "unknown@example.com"))) ∧
    ∀ l : List Char, (∀ c ∈ l, c.toNat < 128) →
      percentDecode (pyQuoteL l) = some (l.map Char.toNat) :=
  ⟨rfl, fun l h => percentDecode_pyQuoteL_ascii l h⟩

/-- Witness for C3: the percent-encoding of a concrete subject string with
spaces and reserved characters decodes back to its character codes. -/
theorem c3_encoded_subject_raw_email_witness :
    percentDecode (pyQuoteL "March Expo: 20% off!".data) =
      some ("March Expo: 20% off!".data.map Char.toNat) :=
  (c3_encoded_subject_raw_email none "a@b.com" "s" "t" "Book" "#").2
    "March Expo: 20% off!".data (by decide)

/-- C4 counterexample: for a recipient row with no `email` field the
`except` handler itself evaluates `row["email"]` and raises, so the send
operation throws a caller-terminating `KeyError` instead of returning a
Failed outcome. -/
theorem c4_counterexample :
    send_email "andrew@corporatewellbeingexpo.com" "pw"
        { email := none, full_name := some "Bob" } "Subject" (some "hi")
        "Book" "#" ⟨none, none, none, none, none⟩ =
      Except.error "KeyError: email" :=
  rfl

/-- C4 (amended): for every input whose recipient row has an email field,
the send operation never throws: whatever the transport does, it returns
the recipient's address paired with either the Delivered marker or a Failed
string carrying the underlying failure's description. -/
theorem c4_failures_returned_as_data (sender_email sender_password : String)
    (row : Row) (subject : String) (custom_html : Option String)
    (cta_text cta_url : String) (env : SmtpEnv) (addr : String)
    (h : row.email = some addr) :
    ∃ s, send_email sender_email sender_password row subject custom_html
        cta_text cta_url env = Except.ok (addr, s) ∧
      (s = "✅ Delivered" ∨ ∃ e, s = "❌ Failed: " ++ e) := by
  rcases row with ⟨em, fn⟩
  rcases env with ⟨cf, sf, lf, sdf, qf⟩
  simp only at h
  subst h
  cases cf <;> cases sf <;> cases lf <;> cases fn <;> cases custom_html <;>
      cases sdf <;> cases qf <;>
    first
      | exact ⟨_, rfl, Or.inl rfl⟩
      | exact ⟨_, rfl, Or.inr ⟨_, rfl⟩⟩

/-- Witness for C4: a concrete attempt whose login is rejected still returns
a Failed outcome as data. -/
theorem c4_failures_returned_as_data_witness :
    ∃ s, send_email "andrew@corporatewellbeingexpo.com" "pw"
        { email := some "a@b.com", full_name := some "Bob" } "Subject"
        (some "hi") "Book" "#" ⟨none, none, some "auth rejected", none, none⟩ =
      Except.ok ("a@b.com", s) ∧
      (s = "✅ Delivered" ∨ ∃ e, s = "❌ Failed: " ++ e) :=
  c4_failures_returned_as_data "andrew@corporatewellbeingexpo.com" "pw"
    { email := some "a@b.com", full_name := some "Bob" } "Subject"
    (some "hi") "Book" "#" ⟨none, none, some "auth rejected", none, none⟩
    "a@b.com" rfl

/-- C5 counterexample: for a CSV whose only column is `name`, the load
succeeds and the dispatch block still submits one `send_email` task for its
row — one Send Channel invocation, not zero — and that invocation ends in
an unhandled `KeyError`. -/
theorem c5_counterexample :
    (startCampaignSubmissions ["name"] [["Bob"]]).length = 1 ∧
    (startCampaignSubmissions ["name"] [["Bob"]]).length ≠ 0 ∧
    send_email "andrew@corporatewellbeingexpo.com" "pw"
        (toRow (processHeaders ["name"]) ["Bob"]) "Subject" (some "hi")
        "Book" "#" ⟨none, none, none, none, none⟩ =
      Except.error "KeyError: email" :=
  ⟨rfl, by decide, rfl⟩

/-- C5 (amended): when the recipient source has no `email` column the run
nonetheless starts: the dispatch block submits one Send Channel invocation
per row, every submitted row has no email field, and every such invocation
raises a `KeyError` instead of delivering anything. -/
theorem c5_missing_email_column (headers : List String)
    (rows : List (List String)) (h : "email" ∉ processHeaders headers) :
    (startCampaignSubmissions headers rows).length = rows.length ∧
    ∀ row ∈ startCampaignSubmissions headers rows,
      row.email = none ∧
      ∀ (s p subject : String) (custom_html : Option String)
        (ct cu : String) (env : SmtpEnv),
        ∃ e, send_email s p row subject custom_html ct cu env =
          Except.error e := by
  have hidx : colIndex (processHeaders headers) "email" = none :=
    colIndex_eq_none _ _ h
  constructor
  · simp [startCampaignSubmissions]
  · intro row hrow
    have hre : row.email = none := by
      simp only [startCampaignSubmissions, List.mem_map] at hrow
      obtain ⟨cells, _, rfl⟩ := hrow
      simp [toRow, hidx]
    refine ⟨hre, ?_⟩
    intro s p subject custom_html ct cu env
    rcases env with ⟨cf, sf, lf, sdf, qf⟩
    cases cf <;> cases sf <;> cases lf <;>
      exact ⟨"KeyError: email",
        by simp [send_email, send_email_run, send_attempt, hre]⟩

/-- Witness for C5: the one-column CSV `name` with a single row. -/
theorem c5_missing_email_column_witness :
    ("email" ∉ processHeaders ["name"]) ∧
    ((startCampaignSubmissions ["name"] [["Bob"]]).length =
        ([["Bob"]] : List (List String)).length ∧
      ∀ row ∈ startCampaignSubmissions ["name"] [["Bob"]],
        row.email = none ∧
        ∀ (s p subject : String) (custom_html : Option String)
          (ct cu : String) (env : SmtpEnv),
          ∃ e, send_email s p row subject custom_html ct cu env =
            Except.error e) :=
  ⟨by decide, c5_missing_email_column ["name"] [["Bob"]] (by decide)⟩

/-- C8 counterexample: an attempt whose login is rejected acquires the
transport connection but returns (as a Failed outcome) without ever running
`server.quit()` — the connection is not released on that exit path. -/
theorem c8_counterexample :
    (send_email_run "andrew@corporatewellbeingexpo.com" "pw"
        { email := some "a@b.com", full_name := some "Bob" } "Subject"
        (some "hi") "Book" "#"
        ⟨none, none, some "535 authentication rejected", none, none⟩).2 =
      [TEvent.acquire] ∧
    TEvent.release ∉
      (send_email_run "andrew@corporatewellbeingexpo.com" "pw"
        { email := some "a@b.com", full_name := some "Bob" } "Subject"
        (some "hi") "Book" "#"
        ⟨none, none, some "535 authentication rejected", none, none⟩).2 ∧
    (send_email_run "andrew@corporatewellbeingexpo.com" "pw"
        { email := some "a@b.com", full_name := some "Bob" } "Subject"
        (some "hi") "Book" "#"
        ⟨none, none, some "535 authentication rejected", none, none⟩).1 =
      Except.ok ("a@b.com", "❌ Failed: 535 authentication rejected") :=
  ⟨rfl, by decide, rfl⟩

/-- C8 (amended): the transport connection is acquired whenever the
connect step succeeds, but it is released only on the fully successful exit
path — on every transport, authentication, rendering or build error the
operation returns without releasing the acquired connection. -/
theorem c8_release_only_on_success (sender_email sender_password : String)
    (row : Row) (subject : String) (custom_html : Option String)
    (cta_text cta_url : String) (env : SmtpEnv) :
    (TEvent.acquire ∈ (send_email_run sender_email sender_password row subject
        custom_html cta_text cta_url env).2 ↔ env.connectRaises = none) ∧
    (TEvent.release ∈ (send_email_run sender_email sender_password row subject
        custom_html cta_text cta_url env).2 ↔
      (env.connectRaises = none ∧ env.starttlsRaises = none ∧
       env.loginRaises = none ∧ row.email.isSome = true ∧
       row.full_name.isSome = true ∧ custom_html.isSome = true ∧
       env.sendRaises = none ∧ env.quitRaises = none)) := by
  rcases env with ⟨cf, sf, lf, sdf, qf⟩
  rcases row with ⟨em, fn⟩
  cases cf <;> cases sf <;> cases lf <;> cases em <;> cases fn <;>
      cases custom_html <;> cases sdf <;> cases qf <;>
    simp [send_email_run, send_attempt, generate_email_html]
